import Mathlib

/-!
Verification of the Fiora video-editor GUI (src/video_editor_gui.py) against its
natural-language specification.  The program is a single-window Tkinter UI whose
observable state is: the status-bar text, the current tool, the pressed state of
the toolbar buttons, the slider variables and their value labels, the visibility
and header text of the two collapsible sections, the timeline blocks, and the
console log.  Every event handler of the source is embedded as a pure function
on that state; GUI events are collected in an inductive `Event` with a `step`
function.  Dialog results (file pickers) are passed as explicit parameters, the
empty string standing for a cancelled dialog, as in the Python truthiness test
`if filename:`.
-/

namespace FioraEditor

/-- Text prefix put on a collapsed section header by toggle_frame
(the literal characters of the source file, line 99). -/
def collapsedMark : String := "‚ñ∫ "

/-- Text prefix put on an expanded section header by toggle_frame
(the literal characters of the source file, line 102). -/
def expandedMark : String := "‚ñº "

/-- The four tool-selecting toolbar buttons, in creation order (lines 195-198).
Import and Export are separate buttons that do not select tools (lines 200-203). -/
def toolbarNames : List String := ["Cut", "Move", "Add Text", "Adjust"]

/-- Adjustment slider names (line 302). -/
def adjustment_names : List String :=
  ["brightness", "contrast", "shadows", "highlights", "whites", "blacks", "levels"]

/-- Color mixer slider names (line 335). -/
def color_names : List String := ["r", "g", "b"]

/-- Observable state of the GUI.  Slider variables are maps from names to
values; adjustment variables are DoubleVar (modelled as rationals), color
variables are IntVar (modelled as integers).  `statusWrites` counts calls of
status_var.set, so that a claim of the form "the status text is updated" can be
stated even when the new text happens to equal the old one. -/
structure EditorState where
  status : String
  statusWrites : Nat
  currentTool : Option String
  pressed : String → Bool
  adjVals : String → Rat
  adjLabels : String → String
  colorVals : String → Int
  colorLabels : String → String
  adjustVisible : Bool
  adjustToggleText : String
  colorVisible : Bool
  colorToggleText : String
  timeline : List String
  console : List String

/-- status_var.set msg. -/
def setStatus (s : EditorState) (msg : String) : EditorState :=
  { s with status := msg, statusWrites := s.statusWrites + 1 }

/-- A print(...) call: appends one line to the console log. -/
def logLine (s : EditorState) (line : String) : EditorState :=
  { s with console := s.console ++ [line] }

/-- placeholder_action (lines 26-29): set the status text, then log. -/
def placeholder_action (s : EditorState) (action_name : String) : EditorState :=
  logLine (setStatus s ("Action: " ++ action_name)) ("[PLACEHOLDER] " ++ action_name)

/-- select_tool (lines 34-44): record the current tool, press exactly the
matching registered toolbar button, set the status text, log. -/
def select_tool (s : EditorState) (tool_name : String) : EditorState :=
  let s1 : EditorState :=
    { s with currentTool := some tool_name,
             pressed := fun name =>
               if name ∈ toolbarNames then decide (name = tool_name) else s.pressed name }
  logLine (setStatus s1 ("Selected tool: " ++ tool_name)) ("Selected tool: " ++ tool_name)

/-- cut_tool (lines 46-47). -/
def cut_tool (s : EditorState) : EditorState := placeholder_action s "Cut Tool used"

/-- move_tool (lines 49-50). -/
def move_tool (s : EditorState) : EditorState := placeholder_action s "Move Tool used"

/-- add_text_tool (lines 52-53). -/
def add_text_tool (s : EditorState) : EditorState := placeholder_action s "Add Text Tool used"

/-- adjust_tool (lines 55-57): placeholder action, then select the Adjust tool. -/
def adjust_tool (s : EditorState) : EditorState :=
  select_tool (placeholder_action s "Adjust Tool selected") "Adjust"

/-- import_video (lines 59-65).  The picker result is a parameter; the empty
string is a cancelled dialog, in which case nothing happens. -/
def import_video (s : EditorState) (filename : String) : EditorState :=
  if filename = "" then s else placeholder_action s ("Imported video: " ++ filename)

/-- export_video (lines 67-74), analogous. -/
def export_video (s : EditorState) (filename : String) : EditorState :=
  if filename = "" then s else placeholder_action s ("Exported video to: " ++ filename)

/-- Python str.capitalize: first character upper-cased, the rest lower-cased. -/
def pyCapitalize (s : String) : String :=
  match s.data with
  | [] => ""
  | c :: cs => String.mk (c.toUpper :: cs.map Char.toLower)

/-- Python str.upper on the ASCII names used here. -/
def pyUpper (s : String) : String := String.mk (s.data.map Char.toUpper)

/-- Round a rational to the nearest integer, ties to even: the rounding used by
Python float formatting. -/
def qRoundHalfEven (x : Rat) : Int :=
  let f : Int := Rat.floor x
  let frac : Rat := x - (f : Rat)
  if frac < 1/2 then f
  else if 1/2 < frac then f + 1
  else if f % 2 = 0 then f else f + 1

/-- Two-digit decimal rendering of a remainder below 100. -/
def twoDigits (r : Nat) : String :=
  (if r < 10 then "0" else "") ++ toString r

/-- The Python format spec .2f: fixed-point with exactly two decimals. -/
def formatFixed2 (q : Rat) : String :=
  let n : Int := qRoundHalfEven (q * 100)
  (if n < 0 then "-" else "") ++ toString (n.natAbs / 100) ++ "." ++ twoDigits (n.natAbs % 100)

/-- Writing an adjustment DoubleVar.  The write-trace installed by make_updater
(lines 315-319) fires and rewrites the value label of that slider to the new
value formatted with two decimals. -/
def set_adjustment_var (s : EditorState) (name : String) (v : Rat) : EditorState :=
  { s with adjVals := fun m => if m = name then v else s.adjVals m,
           adjLabels := fun m => if m = name then formatFixed2 v else s.adjLabels m }

/-- Writing a color IntVar.  The write-trace installed by make_color_updater
(lines 346-350) fires and rewrites the value label to the decimal rendering of
the new integer. -/
def set_color_var (s : EditorState) (name : String) (v : Int) : EditorState :=
  { s with colorVals := fun m => if m = name then v else s.colorVals m,
           colorLabels := fun m => if m = name then toString v else s.colorLabels m }

/-- update_adjustment (lines 79-84): read the current value of the named
variable, set the status text to the capitalized name and the value with two
decimals, log. -/
def update_adjustment (s : EditorState) (var_name : String) : EditorState :=
  let val := s.adjVals var_name
  logLine (setStatus s (pyCapitalize var_name ++ ": " ++ formatFixed2 val))
    ("[ADJUST] " ++ var_name ++ " = " ++ formatFixed2 val)

/-- update_color (lines 86-90): read the current value, set the status text to
the upper-cased name and int(val), log. -/
def update_color (s : EditorState) (var_name : String) : EditorState :=
  let val := s.colorVals var_name
  logLine (setStatus s (pyUpper var_name ++ ": " ++ toString val))
    ("[COLOR] " ++ pyUpper var_name ++ " = " ++ toString val)

/-- Dragging an adjustment slider: ttk.Scale writes the bound variable (firing
the label trace) and invokes its command, update_adjustment (lines 311-312). -/
def adjustment_scale_change (s : EditorState) (name : String) (v : Rat) : EditorState :=
  update_adjustment (set_adjustment_var s name v) name

/-- Dragging a color slider: the variable write plus update_color (lines 342-343). -/
def color_scale_change (s : EditorState) (name : String) (v : Int) : EditorState :=
  update_color (set_color_var s name v) name

/-- toggle_frame (lines 95-102) on one section: from the viewable flag compute
the new flag and the new header-button text. -/
def toggle_frame (visible : Bool) (original_text : String) : Bool × String :=
  if visible then (false, collapsedMark ++ original_text)
  else (true, expandedMark ++ original_text)

/-- Command of the Adjustments header button (line 322). -/
def toggle_adjust (s : EditorState) : EditorState :=
  let r := toggle_frame s.adjustVisible "Adjustments"
  { s with adjustVisible := r.1, adjustToggleText := r.2 }

/-- Command of the Color Mixer header button (line 353). -/
def toggle_color (s : EditorState) : EditorState :=
  let r := toggle_frame s.colorVisible "Color Mixer"
  { s with colorVisible := r.1, colorToggleText := r.2 }

/-- Label of timeline block i (line 259): Clip i+1 over a timestamp built as
the three pieces 00:0, i, :00. -/
def clipLabel (i : Nat) : String :=
  "Clip " ++ toString (i + 1) ++ "\n00:0" ++ toString i ++ ":00"

/-- populate_timeline (lines 254-262): append the 12 static blocks. -/
def populate_timeline (s : EditorState) : EditorState :=
  { s with timeline := s.timeline ++ (List.range 12).map clipLabel }

/-- The state right after widget construction, before populate_timeline (line
264) and before the startup call select_tool of Move (line 363): status_var
holds its initial value Ready (line 358), no tool selected, no button pressed,
sliders at their creation values (0.0, levels 1.0, colors 128) with labels
showing str of those values (lines 309, 314, 340, 345), both sections expanded
with their initial header texts (lines 295, 327), empty timeline and console. -/
def initialState : EditorState where
  status := "Ready"
  statusWrites := 0
  currentTool := none
  pressed := fun _ => false
  adjVals := fun n => if n = "levels" then 1 else 0
  adjLabels := fun n => if n = "levels" then "1.0" else "0.0"
  colorVals := fun _ => 128
  colorLabels := fun _ => "128"
  adjustVisible := true
  adjustToggleText := expandedMark ++ "Adjustments"
  colorVisible := true
  colorToggleText := expandedMark ++ "Color Mixer"
  timeline := []
  console := []

/-- The state when the main loop starts: the timeline has been populated once
(line 264) and select_tool of Move has run (line 363). -/
def startupState : EditorState :=
  select_tool (populate_timeline initialState) "Move"

/-- Every GUI event after startup.  Buttons carry no data except the two
file-picker buttons, whose dialog result is the parameter; slider drags carry
the slider name and the new value; the two keyboard shortcuts (lines 377-378)
are included for completeness. -/
inductive Event where
  | clickCut
  | clickMove
  | clickAddText
  | clickAdjust
  | clickImport (dialogResult : String)
  | clickExport (dialogResult : String)
  | menuNewProject
  | menuOpen
  | menuSave
  | menuExit
  | menuUndo
  | menuRedo
  | menuAbout
  | clickPrev
  | clickPlayPause
  | clickNext
  | clickAdjustToggle
  | clickColorToggle
  | dragAdjustment (name : String) (v : Rat)
  | dragColor (name : String) (v : Int)
  | keySave
  | keyQuit
deriving DecidableEq

/-- Dispatch of every event to its handler.  A toolbar tool button runs its
command and then select_tool of its own name (line 189).  Exit (line 146) and
About (line 155) leave the modelled state unchanged: root.quit and the message
box touch none of it.  The keyboard shortcuts mirror lines 377-378. -/
def step (s : EditorState) : Event → EditorState
  | .clickCut => select_tool (cut_tool s) "Cut"
  | .clickMove => select_tool (move_tool s) "Move"
  | .clickAddText => select_tool (add_text_tool s) "Add Text"
  | .clickAdjust => select_tool (adjust_tool s) "Adjust"
  | .clickImport r => import_video s r
  | .clickExport r => export_video s r
  | .menuNewProject => placeholder_action s "New Project"
  | .menuOpen => placeholder_action s "Open Project"
  | .menuSave => placeholder_action s "Save Project"
  | .menuExit => s
  | .menuUndo => placeholder_action s "Undo"
  | .menuRedo => placeholder_action s "Redo"
  | .menuAbout => s
  | .clickPrev => placeholder_action s "Prev Frame"
  | .clickPlayPause => placeholder_action s "Play/Pause"
  | .clickNext => placeholder_action s "Next Frame"
  | .clickAdjustToggle => toggle_adjust s
  | .clickColorToggle => toggle_color s
  | .dragAdjustment n v => adjustment_scale_change s n v
  | .dragColor n v => color_scale_change s n v
  | .keySave => placeholder_action s "Save Project"
  | .keyQuit => s

/-- The events delivered by clicking a button or a menu entry, as opposed to
slider drags and keyboard shortcuts. -/
def Event.isButton : Event → Bool
  | .dragAdjustment _ _ => false
  | .dragColor _ _ => false
  | .keySave => false
  | .keyQuit => false
  | _ => true

/-- The four tool-button click events. -/
def toolClickEvents : List Event :=
  [Event.clickCut, Event.clickMove, Event.clickAddText, Event.clickAdjust]

/-- Exclusive selection: t is a registered toolbar button, it is the current
tool, and among the registered buttons exactly the one named t is pressed. -/
def exclusiveSelection (s : EditorState) (t : String) : Prop :=
  t ∈ toolbarNames ∧ s.currentTool = some t ∧
    ∀ n ∈ toolbarNames, (s.pressed n = true ↔ n = t)

end FioraEditor

namespace FioraEditor

/-- C1: for every adjustment slider, setting its bound DoubleVar to v makes the
value label next to it display v with two decimal places, and for every color
slider, setting its bound IntVar to w makes its value label display the integer
w; in both cases the label displays exactly the value the variable now holds,
so every slider displays the value it was set to. -/
theorem c1_slider_label_shows_set_value (s : EditorState)
    (na nc : String) (v : Rat) (w : Int)
    (_ha : na ∈ adjustment_names) (_hc : nc ∈ color_names) :
    (set_adjustment_var s na v).adjLabels na = formatFixed2 v ∧
    (set_adjustment_var s na v).adjLabels na
      = formatFixed2 ((set_adjustment_var s na v).adjVals na) ∧
    (set_color_var s nc w).colorLabels nc = toString w ∧
    (set_color_var s nc w).colorLabels nc
      = toString ((set_color_var s nc w).colorVals nc) := by
  refine ⟨?_, ?_, ?_, ?_⟩ <;> simp [set_adjustment_var, set_color_var]

/-- Witness for C1 at the brightness and r sliders of the initial state. -/
theorem c1_witness :
    (set_adjustment_var initialState "brightness" (1/2)).adjLabels "brightness"
      = formatFixed2 (1/2) ∧
    (set_color_var initialState "r" 200).colorLabels "r" = "200" := by
  have h := c1_slider_label_shows_set_value initialState "brightness" "r" (1/2) 200
    (by decide) (by decide)
  exact ⟨h.1, h.2.2.1.trans (by decide)⟩

/-- C3: clicking Cut, Move, Add Text or Adjust first invokes the placeholder
handler of that button (visible in the console log) and then select_tool of its
name, so the current tool becomes that name and the status text ends as
Selected tool: name; clicking Import or Export never changes the current tool,
whatever the dialog returns. -/
theorem c3_tool_buttons_select (s : EditorState) (p : String) :
    ((step s Event.clickCut).currentTool = some "Cut" ∧
      (step s Event.clickCut).status = "Selected tool: Cut" ∧
      (step s Event.clickCut).console
        = s.console ++ ["[PLACEHOLDER] Cut Tool used", "Selected tool: Cut"]) ∧
    ((step s Event.clickMove).currentTool = some "Move" ∧
      (step s Event.clickMove).status = "Selected tool: Move" ∧
      (step s Event.clickMove).console
        = s.console ++ ["[PLACEHOLDER] Move Tool used", "Selected tool: Move"]) ∧
    ((step s Event.clickAddText).currentTool = some "Add Text" ∧
      (step s Event.clickAddText).status = "Selected tool: Add Text" ∧
      (step s Event.clickAddText).console
        = s.console ++ ["[PLACEHOLDER] Add Text Tool used", "Selected tool: Add Text"]) ∧
    ((step s Event.clickAdjust).currentTool = some "Adjust" ∧
      (step s Event.clickAdjust).status = "Selected tool: Adjust" ∧
      (step s Event.clickAdjust).console
        = s.console ++ ["[PLACEHOLDER] Adjust Tool selected",
            "Selected tool: Adjust", "Selected tool: Adjust"]) ∧
    (step s (Event.clickImport p)).currentTool = s.currentTool ∧
    (step s (Event.clickExport p)).currentTool = s.currentTool := by
  refine ⟨⟨rfl, rfl, ?_⟩, ⟨rfl, rfl, ?_⟩, ⟨rfl, rfl, ?_⟩, ⟨rfl, rfl, ?_⟩, ?_, ?_⟩
  case refine_5 =>
    by_cases h : p = "" <;>
      simp [step, import_video, placeholder_action, setStatus, logLine, h]
  case refine_6 =>
    by_cases h : p = "" <;>
      simp [step, export_video, placeholder_action, setStatus, logLine, h]
  all_goals
    simp [step, select_tool, cut_tool, move_tool, add_text_tool, adjust_tool,
      placeholder_action, setStatus, logLine]

/-- C4: update_adjustment sets the status text to the capitalized slider name,
a colon and the current value with two decimals; update_color sets it to the
upper-cased name, a colon and int of the current value; apart from the status
text (and the console log) neither handler changes any state field. -/
theorem c4_update_handlers_frame (s : EditorState) (n : String) :
    (update_adjustment s n).status = pyCapitalize n ++ ": " ++ formatFixed2 (s.adjVals n) ∧
    (update_color s n).status = pyUpper n ++ ": " ++ toString (s.colorVals n) ∧
    (update_adjustment s n).currentTool = s.currentTool ∧
    (update_adjustment s n).pressed = s.pressed ∧
    (update_adjustment s n).adjVals = s.adjVals ∧
    (update_adjustment s n).adjLabels = s.adjLabels ∧
    (update_adjustment s n).colorVals = s.colorVals ∧
    (update_adjustment s n).colorLabels = s.colorLabels ∧
    (update_adjustment s n).adjustVisible = s.adjustVisible ∧
    (update_adjustment s n).adjustToggleText = s.adjustToggleText ∧
    (update_adjustment s n).colorVisible = s.colorVisible ∧
    (update_adjustment s n).colorToggleText = s.colorToggleText ∧
    (update_adjustment s n).timeline = s.timeline ∧
    (update_color s n).currentTool = s.currentTool ∧
    (update_color s n).pressed = s.pressed ∧
    (update_color s n).adjVals = s.adjVals ∧
    (update_color s n).adjLabels = s.adjLabels ∧
    (update_color s n).colorVals = s.colorVals ∧
    (update_color s n).colorLabels = s.colorLabels ∧
    (update_color s n).adjustVisible = s.adjustVisible ∧
    (update_color s n).adjustToggleText = s.adjustToggleText ∧
    (update_color s n).colorVisible = s.colorVisible ∧
    (update_color s n).colorToggleText = s.colorToggleText ∧
    (update_color s n).timeline = s.timeline :=
  ⟨rfl, rfl, rfl, rfl, rfl, rfl, rfl, rfl, rfl, rfl, rfl, rfl, rfl, rfl, rfl, rfl,
    rfl, rfl, rfl, rfl, rfl, rfl, rfl, rfl⟩

/-- C5: placeholder_action with name a sets the status text to Action: a, adds
one console line, and changes nothing else. -/
theorem c5_placeholder_only_status (s : EditorState) (a : String) :
    (placeholder_action s a).status = "Action: " ++ a ∧
    (placeholder_action s a).statusWrites = s.statusWrites + 1 ∧
    (placeholder_action s a).console = s.console ++ ["[PLACEHOLDER] " ++ a] ∧
    (placeholder_action s a).currentTool = s.currentTool ∧
    (placeholder_action s a).pressed = s.pressed ∧
    (placeholder_action s a).adjVals = s.adjVals ∧
    (placeholder_action s a).adjLabels = s.adjLabels ∧
    (placeholder_action s a).colorVals = s.colorVals ∧
    (placeholder_action s a).colorLabels = s.colorLabels ∧
    (placeholder_action s a).adjustVisible = s.adjustVisible ∧
    (placeholder_action s a).adjustToggleText = s.adjustToggleText ∧
    (placeholder_action s a).colorVisible = s.colorVisible ∧
    (placeholder_action s a).colorToggleText = s.colorToggleText ∧
    (placeholder_action s a).timeline = s.timeline :=
  ⟨rfl, rfl, rfl, rfl, rfl, rfl, rfl, rfl, rfl, rfl, rfl, rfl, rfl, rfl⟩

end FioraEditor

namespace FioraEditor

/-- C6: the chosen path is never read or processed: with a non-empty dialog
result p the import (resp. export) handler only sets the status text to
Action: Imported video: p (resp. Action: Exported video to: p); with a
cancelled dialog the state is returned completely unchanged; and in every case
all fields other than the status text and the console are untouched. -/
theorem c6_import_export_only_status (s : EditorState) (p : String) :
    (p ≠ "" →
      (import_video s p).status = "Action: Imported video: " ++ p ∧
      (export_video s p).status = "Action: Exported video to: " ++ p ∧
      (import_video s p).statusWrites = s.statusWrites + 1 ∧
      (export_video s p).statusWrites = s.statusWrites + 1) ∧
    import_video s "" = s ∧
    export_video s "" = s ∧
    (import_video s p).currentTool = s.currentTool ∧
    (import_video s p).pressed = s.pressed ∧
    (import_video s p).adjVals = s.adjVals ∧
    (import_video s p).adjLabels = s.adjLabels ∧
    (import_video s p).colorVals = s.colorVals ∧
    (import_video s p).colorLabels = s.colorLabels ∧
    (import_video s p).adjustVisible = s.adjustVisible ∧
    (import_video s p).adjustToggleText = s.adjustToggleText ∧
    (import_video s p).colorVisible = s.colorVisible ∧
    (import_video s p).colorToggleText = s.colorToggleText ∧
    (import_video s p).timeline = s.timeline ∧
    (export_video s p).currentTool = s.currentTool ∧
    (export_video s p).pressed = s.pressed ∧
    (export_video s p).adjVals = s.adjVals ∧
    (export_video s p).adjLabels = s.adjLabels ∧
    (export_video s p).colorVals = s.colorVals ∧
    (export_video s p).colorLabels = s.colorLabels ∧
    (export_video s p).adjustVisible = s.adjustVisible ∧
    (export_video s p).adjustToggleText = s.adjustToggleText ∧
    (export_video s p).colorVisible = s.colorVisible ∧
    (export_video s p).colorToggleText = s.colorToggleText ∧
    (export_video s p).timeline = s.timeline := by
  by_cases h : p = ""
  · simp [import_video, export_video, placeholder_action, setStatus, logLine, h]
  · simp [import_video, export_video, placeholder_action, setStatus, logLine, h]
    exact ⟨rfl, rfl⟩

/-- Witness for C6 at the startup state with a concrete path and with a
cancelled dialog. -/
theorem c6_witness :
    (import_video startupState "clip.mp4").status = "Action: Imported video: clip.mp4" ∧
    (export_video startupState "clip.mp4").status = "Action: Exported video to: clip.mp4" ∧
    import_video startupState "" = startupState ∧
    export_video startupState "" = startupState := by
  have h := c6_import_export_only_status startupState "clip.mp4"
  have h1 := h.1 (by decide)
  exact ⟨h1.1, h1.2.1, h.2.1, h.2.2.1⟩

/-- C7: the timeline is populated exactly once, at startup, with the fixed row
of 12 blocks whose labels are Clip i+1 over the three pieces 00:0, i, :00 for i
from 0 to 11 (so blocks 11 and 12 read 00:010:00 and 00:011:00), and no event
after startup ever changes the timeline. -/
theorem c7_timeline_static (s : EditorState) (e : Event) :
    startupState.timeline =
      ["Clip 1\n00:00:00", "Clip 2\n00:01:00", "Clip 3\n00:02:00", "Clip 4\n00:03:00",
       "Clip 5\n00:04:00", "Clip 6\n00:05:00", "Clip 7\n00:06:00", "Clip 8\n00:07:00",
       "Clip 9\n00:08:00", "Clip 10\n00:09:00", "Clip 11\n00:010:00",
       "Clip 12\n00:011:00"] ∧
    (step s e).timeline = s.timeline := by
  refine ⟨by decide, ?_⟩
  cases e <;> try rfl
  all_goals
    rename_i r
    by_cases h : r = "" <;>
      simp [step, import_video, export_video, placeholder_action, setStatus, logLine, h]

/-- C8: toggling a collapsible section header flips the visibility flag of that
section, rewrites the header text to the marker matching the new state followed
by the original title, and changes nothing else; toggling twice restores the
previous visibility state. -/
theorem c8_toggle_involution_display_only (s : EditorState) :
    (toggle_adjust s).adjustVisible = !s.adjustVisible ∧
    (toggle_adjust (toggle_adjust s)).adjustVisible = s.adjustVisible ∧
    (toggle_adjust s).adjustToggleText
      = (if (toggle_adjust s).adjustVisible then expandedMark else collapsedMark)
          ++ "Adjustments" ∧
    (toggle_adjust s).status = s.status ∧
    (toggle_adjust s).statusWrites = s.statusWrites ∧
    (toggle_adjust s).currentTool = s.currentTool ∧
    (toggle_adjust s).pressed = s.pressed ∧
    (toggle_adjust s).adjVals = s.adjVals ∧
    (toggle_adjust s).adjLabels = s.adjLabels ∧
    (toggle_adjust s).colorVals = s.colorVals ∧
    (toggle_adjust s).colorLabels = s.colorLabels ∧
    (toggle_adjust s).colorVisible = s.colorVisible ∧
    (toggle_adjust s).colorToggleText = s.colorToggleText ∧
    (toggle_adjust s).timeline = s.timeline ∧
    (toggle_adjust s).console = s.console ∧
    (toggle_color s).colorVisible = !s.colorVisible ∧
    (toggle_color (toggle_color s)).colorVisible = s.colorVisible ∧
    (toggle_color s).colorToggleText
      = (if (toggle_color s).colorVisible then expandedMark else collapsedMark)
          ++ "Color Mixer" ∧
    (toggle_color s).status = s.status ∧
    (toggle_color s).statusWrites = s.statusWrites ∧
    (toggle_color s).currentTool = s.currentTool ∧
    (toggle_color s).pressed = s.pressed ∧
    (toggle_color s).adjVals = s.adjVals ∧
    (toggle_color s).adjLabels = s.adjLabels ∧
    (toggle_color s).colorVals = s.colorVals ∧
    (toggle_color s).colorLabels = s.colorLabels ∧
    (toggle_color s).adjustVisible = s.adjustVisible ∧
    (toggle_color s).adjustToggleText = s.adjustToggleText ∧
    (toggle_color s).timeline = s.timeline ∧
    (toggle_color s).console = s.console := by
  cases ha : s.adjustVisible <;> cases hc : s.colorVisible <;>
    simp [toggle_adjust, toggle_color, toggle_frame, ha, hc]

end FioraEditor

namespace FioraEditor

/-- C2 counterexample: the Adjustments header toggle is a button of the user
interface, yet invoking its command at the startup state leaves the status text
and the count of status writes unchanged, so not every button click updates the
status text. -/
theorem c2_counterexample :
    Event.isButton Event.clickAdjustToggle = true ∧
    (step startupState Event.clickAdjustToggle).status = startupState.status ∧
    (step startupState Event.clickAdjustToggle).statusWrites
      = startupState.statusWrites :=
  ⟨rfl, rfl, rfl⟩

/-- C2 amended: invoking a tool button, a playback control button or one of the
placeholder menu commands (New Project, Open, Save, Undo, Redo) always writes
the status text, and so do Import and Export when the picker returns a
non-empty path; the two collapsible-section header toggles, the Exit and About
menu entries, and Import or Export with a cancelled picker never write it. -/
theorem c2_button_status_updates (s : EditorState) (p : String) :
    s.statusWrites < (step s Event.clickCut).statusWrites ∧
    s.statusWrites < (step s Event.clickMove).statusWrites ∧
    s.statusWrites < (step s Event.clickAddText).statusWrites ∧
    s.statusWrites < (step s Event.clickAdjust).statusWrites ∧
    s.statusWrites < (step s Event.menuNewProject).statusWrites ∧
    s.statusWrites < (step s Event.menuOpen).statusWrites ∧
    s.statusWrites < (step s Event.menuSave).statusWrites ∧
    s.statusWrites < (step s Event.menuUndo).statusWrites ∧
    s.statusWrites < (step s Event.menuRedo).statusWrites ∧
    s.statusWrites < (step s Event.clickPrev).statusWrites ∧
    s.statusWrites < (step s Event.clickPlayPause).statusWrites ∧
    s.statusWrites < (step s Event.clickNext).statusWrites ∧
    (p ≠ "" → s.statusWrites < (step s (Event.clickImport p)).statusWrites) ∧
    (p ≠ "" → s.statusWrites < (step s (Event.clickExport p)).statusWrites) ∧
    (step s (Event.clickImport "")).statusWrites = s.statusWrites ∧
    (step s (Event.clickExport "")).statusWrites = s.statusWrites ∧
    (step s Event.clickAdjustToggle).statusWrites = s.statusWrites ∧
    (step s Event.clickColorToggle).statusWrites = s.statusWrites ∧
    (step s Event.menuExit).statusWrites = s.statusWrites ∧
    (step s Event.menuAbout).statusWrites = s.statusWrites := by
  refine ⟨?_, ?_, ?_, ?_, ?_, ?_, ?_, ?_, ?_, ?_, ?_, ?_, ?_, ?_, ?_, ?_, ?_, ?_, ?_, ?_⟩ <;>
    try intro h
  all_goals
    simp [step, select_tool, cut_tool, move_tool, add_text_tool, adjust_tool,
      placeholder_action, setStatus, logLine, import_video, export_video,
      toggle_adjust, toggle_color, toggle_frame, *] <;>
    omega

/-- Witness for C2 amended: Import with a chosen path writes the status text
once, Import with a cancelled picker does not write it. -/
theorem c2_button_status_updates_witness :
    startupState.statusWrites
      < (step startupState (Event.clickImport "clip.mp4")).statusWrites ∧
    (step startupState (Event.clickImport "")).statusWrites
      = startupState.statusWrites := by
  obtain ⟨-, -, -, -, -, -, -, -, -, -, -, -, h13, -, h15, -, -, -, -, -⟩ :=
    c2_button_status_updates startupState "clip.mp4"
  exact ⟨h13 (by decide), h15⟩

/-- Helper: select_tool with a registered tool name establishes exclusive
selection of that tool. -/
theorem select_tool_exclusive (s : EditorState) (t : String) (ht : t ∈ toolbarNames) :
    exclusiveSelection (select_tool s t) t := by
  refine ⟨ht, rfl, ?_⟩
  intro n hn
  simp [select_tool, logLine, setStatus, hn]

/-- Helper: every tool-button click puts the interface in an exclusive
selection state for that tool. -/
theorem toolClick_exclusive (s : EditorState) (e : Event) (he : e ∈ toolClickEvents) :
    ∃ t, exclusiveSelection (step s e) t ∧ (step s e).status = "Selected tool: " ++ t := by
  simp [toolClickEvents] at he
  rcases he with h | h | h | h <;> subst h
  · exact ⟨"Cut", select_tool_exclusive _ _ (by decide), rfl⟩
  · exact ⟨"Move", select_tool_exclusive _ _ (by decide), rfl⟩
  · exact ⟨"Add Text", select_tool_exclusive _ _ (by decide), rfl⟩
  · exact ⟨"Adjust", select_tool_exclusive _ _ (by decide), rfl⟩

/-- Helper: after any nonempty sequence of tool-button clicks some tool is
exclusively selected. -/
theorem toolClicks_exclusive_seq (s : EditorState) (es : List Event)
    (hne : es ≠ []) (hall : ∀ e ∈ es, e ∈ toolClickEvents) :
    ∃ t, exclusiveSelection (es.foldl step s) t := by
  induction es generalizing s with
  | nil => exact absurd rfl hne
  | cons e rest ih =>
    cases rest with
    | nil =>
      obtain ⟨t, h1, -⟩ := toolClick_exclusive s e (hall e (by simp))
      exact ⟨t, h1⟩
    | cons e2 rest2 =>
      exact ih (step s e) (by simp) (fun x hx => hall x (List.mem_cons_of_mem _ hx))

/-- C9: after select_tool with a registered tool name t, the current tool is t,
the status text is Selected tool: t, and among the registered toolbar buttons
exactly the one named t is pressed; the exclusive-selection invariant holds
again after every nonempty sequence of tool-button clicks. -/
theorem c9_exclusive_selection (s : EditorState) (t : String) (es : List Event)
    (ht : t ∈ toolbarNames) (hne : es ≠ []) (hall : ∀ e ∈ es, e ∈ toolClickEvents) :
    (exclusiveSelection (select_tool s t) t ∧
      (select_tool s t).status = "Selected tool: " ++ t ∧
      (toolbarNames.filter fun n => (select_tool s t).pressed n) = [t]) ∧
    ∃ u, exclusiveSelection (es.foldl step s) u := by
  refine ⟨⟨select_tool_exclusive s t ht, rfl, ?_⟩, toolClicks_exclusive_seq s es hne hall⟩
  have ht2 : t = "Cut" ∨ t = "Move" ∨ t = "Add Text" ∨ t = "Adjust" := by
    simpa [toolbarNames] using ht
  rcases ht2 with rfl | rfl | rfl | rfl <;>
    simp [toolbarNames, select_tool, logLine, setStatus, List.filter]

/-- Witness for C9: selecting Cut at startup, and a two-click sequence. -/
theorem c9_witness :
    (exclusiveSelection (select_tool startupState "Cut") "Cut" ∧
      (toolbarNames.filter fun n => (select_tool startupState "Cut").pressed n) = ["Cut"]) ∧
    ∃ u, exclusiveSelection
      ([Event.clickMove, Event.clickAdjust].foldl step startupState) u := by
  have h := c9_exclusive_selection startupState "Cut" [Event.clickMove, Event.clickAdjust]
    (by decide) (by decide) (by decide)
  exact ⟨⟨h.1.1, h.1.2.2⟩, h.2⟩

/-- C10: when construction finishes and the main loop starts, the current tool
is Move and the status text is Selected tool: Move; the initial status value
Ready was written at creation of status_var but select_tool of Move runs during
construction (line 363) and overwrites it, so Ready is not the status shown at
main-loop start. -/
theorem c10_startup_status :
    initialState.status = "Ready" ∧
    startupState.currentTool = some "Move" ∧
    startupState.status = "Selected tool: Move" ∧
    startupState.status ≠ "Ready" ∧
    startupState.statusWrites = 1 :=
  ⟨rfl, rfl, rfl, by decide, rfl⟩

end FioraEditor
